import Mathlib

/-!
Verification of the common-node printer core of the Move prettier plugin
(`prettier-move/src/cst/Common.ts`): the node-kind dispatch table and the
per-kind print procedures producing layout documents.

The syntax-node interface (kind, raw text, ordered children, the
formatting-significant-children view, sibling accessors) is the parser
collaborator's; it is embedded here as an inductive tree with explicit
sibling contexts.  Print procedures are embedded as functions from a
recursive-print callback, the node's sibling context and the node itself to
an optional document; `none` models the hard failure that the TypeScript
code raises on a structural precondition violation (a non-null assertion or
child access on a missing child).
-/

/-- A concrete syntax node, as the printer core consumes it: a kind
discriminant, the raw source text, whether the node belongs to the
formatting-significant children view of its parent, the source rows it
spans, and its ordered children. -/
inductive Node where
  | mk (type text : String) (significant : Bool) (startRow endRow : Nat)
       (children : List Node)

/-- Node-kind discriminant (`node.type`). -/
def Node.type : Node → String
  | .mk t _ _ _ _ _ => t

/-- Raw source slice of the node (`node.text`). -/
def Node.text : Node → String
  | .mk _ s _ _ _ _ => s

/-- Whether the node is kept by the formatting-significant children view of
its parent (comments and layout-irrelevant punctuation are dropped). -/
def Node.significant : Node → Bool
  | .mk _ _ b _ _ _ => b

/-- First source row covered by the node. -/
def Node.startRow : Node → Nat
  | .mk _ _ _ r _ _ => r

/-- Last source row covered by the node. -/
def Node.endRow : Node → Nat
  | .mk _ _ _ _ r _ => r

/-- Ordered raw children, source order (`node.children`). -/
def Node.children : Node → List Node
  | .mk _ _ _ _ _ cs => cs

/-- Raw child at index `i` (`node.child(i)`), `none` when out of range. -/
def Node.child (n : Node) (i : Nat) : Option Node :=
  n.children.get? i

/-- Sibling context of a node inside its parent: the raw previous and next
siblings (`node.previousSibling` / `node.nextSibling`). -/
structure Ctx where
  prevSibling : Option Node
  nextSibling : Option Node

/-- `previousSibling?.type == t` from the TypeScript code. -/
def Ctx.prevTypeIs (c : Ctx) (t : String) : Bool :=
  match c.prevSibling with
  | some s => s.type == t
  | none => false

/-- `nextSibling?.type == t` from the TypeScript code. -/
def Ctx.nextTypeIs (c : Ctx) (t : String) : Bool :=
  match c.nextSibling with
  | some s => s.type == t
  | none => false

/-- Pair every element of a child list with its sibling context, given the
child that precedes the list. -/
def childCtxs : List Node → Option Node → List (Ctx × Node)
  | [], _ => []
  | c :: rest, prev => (⟨prev, rest.head?⟩, c) :: childCtxs rest (some c)

/-- The raw children of a node, each with its sibling context. -/
def Node.childrenWithCtx (n : Node) : List (Ctx × Node) :=
  childCtxs n.children none

/-- The formatting-significant children of a node
(`node.nonFormattingChildren`). -/
def Node.nonFormattingChildren (n : Node) : List Node :=
  n.children.filter (·.significant)

/-- The formatting-significant children, each with its sibling context among
the raw children (prettier's `AstPath` exposes exactly this when mapping
over `nonFormattingChildren`). -/
def Node.nonFormattingWithCtx (n : Node) : List (Ctx × Node) :=
  n.childrenWithCtx.filter (fun p => p.2.significant)

/-- The document algebra produced by the printer core: prettier's layout
primitives as constructed by `Common.ts` (arrays embed as `concat`). -/
inductive Doc where
  | text (s : String)
  | concat (ds : List Doc)
  | group (d : Doc) (shouldBreak : Bool)
  | indent (d : Doc)
  | line
  | softline
  | hardline
  | ifBreak (whenBroken whenFlat : Doc)

/-- Prettier's `join(sep, ds)`: the documents with the separator
interspersed (an array, i.e. a `concat`). -/
def joinDoc (sep : Doc) (ds : List Doc) : Doc :=
  Doc.concat (List.intersperse sep ds)

/-- The recursive-print callback handed to every print procedure: prints a
child node given its sibling context. -/
abbrev RecPrint := Ctx → Node → Doc

/-- A registered print procedure: recursive-print callback, the node's own
sibling context, the node; `none` is the hard failure on a malformed tree. -/
abbrev PrintProc := RecPrint → Ctx → Node → Option Doc

/-- `path.map(print, 'nonFormattingChildren')`. -/
def printedChildren (print : RecPrint) (n : Node) : List Doc :=
  n.nonFormattingWithCtx.map (fun p => print p.1 p.2)

/-- `path.map(print, 'children')`. -/
def printedRawChildren (print : RecPrint) (n : Node) : List Doc :=
  n.childrenWithCtx.map (fun p => print p.1 p.2)

/-- Modelled from the spec: `shouldBreakFirstChild` lives in
`src/utilities.ts`, which is not part of the provided sources; per the spec
it reports whether the node's first child already spans multiple source
lines in the original. -/
def shouldBreakFirstChild (n : Node) : Bool :=
  match n.children.head? with
  | some c => c.startRow != c.endRow
  | none => false

/-- Modelled from the spec: the list-formatting helper (`list` in
`src/utilities.ts`) is not part of the provided sources; per the spec it
wraps the node's formatting-significant children's documents with open and
close delimiters, optional interior padding, and an optional skip-first-N
mode.  Details beyond those words are unspecified; this definition fixes one
faithful to them. -/
def listHelper (print : RecPrint) (n : Node) (opener closer : String)
    (addWhitespace : Bool) (skipChildren : Nat) : Doc :=
  let ds := (n.nonFormattingWithCtx.drop skipChildren).map (fun p => print p.1 p.2)
  let pad := if addWhitespace then Doc.line else Doc.softline
  Doc.group
    (Doc.concat [Doc.text opener, Doc.indent pad,
      Doc.indent (joinDoc (Doc.concat [Doc.text ",", Doc.line]) ds),
      Doc.ifBreak (Doc.text ",") (Doc.text ""), pad, Doc.text closer])
    false

/-- Print `primitive_type` node. -/
def printPrimitiveType : PrintProc := fun _ _ n =>
  some (Doc.text n.text)

/-- Print `variable_identifier` node. -/
def printVariableIdentifier : PrintProc := fun _ _ n =>
  some (Doc.text n.text)

/-- Print `module_access` node. -/
def printModuleAccess : PrintProc := fun print _ n =>
  some (Doc.concat (printedRawChildren print n))

/-- Print `identifier` node. -/
def printIdentifier : PrintProc := fun _ _ n =>
  some (Doc.text n.text)

/-- Print `ref_type` node: `child(0)!.text == '&' ? ['&'] : ['&mut ']`,
then the first formatting-significant child (the referenced type), in a
group. -/
def printRefType : PrintProc := fun print _ n =>
  match n.child 0 with
  | none => none
  | some c0 =>
    let ref := if c0.text == "&" then [Doc.text "&"] else [Doc.text "&mut "]
    match n.nonFormattingWithCtx.head? with
    | none => none
    | some p => some (Doc.group (Doc.concat (ref ++ [print p.1 p.2])) false)

/-- Print `binary_operator` node. -/
def printBinaryOperator : PrintProc := fun _ _ n =>
  some (Doc.text n.text)

/-- Print `field_identifier` node. -/
def printFieldIdentifier : PrintProc := fun _ _ n =>
  some (Doc.text n.text)

/-- Print `annotation` node. -/
def printAnnotation : PrintProc := fun print _ n =>
  some (Doc.group (Doc.concat [Doc.text "#", listHelper print n "[" "]" false 0]) false)

/-- Print `annotation_item` node. -/
def printAnnotationItem : PrintProc := fun print _ n =>
  some (Doc.concat (printedChildren print n))

/-- Print `annotation_list` node: first child, then a parenthesized list of
the remaining children (skip-first-1 mode). -/
def printAnnotationList : PrintProc := fun print _ n =>
  match n.nonFormattingWithCtx.head? with
  | none => none
  | some p =>
    some (Doc.concat [print p.1 p.2, listHelper print n "(" ")" false 1])

/-- Print `annotation_expr` node: children joined by `" = "`; a
`module_access` child preceded by a `::` sibling re-prepends the
separator. -/
def printAnnotationExpression : PrintProc := fun print _ n =>
  some (joinDoc (Doc.text " = ")
    (n.nonFormattingWithCtx.map (fun p =>
      if p.2.type == "module_access" && p.1.prevTypeIs "::" then
        Doc.concat [Doc.text "::", print p.1 p.2]
      else print p.1 p.2)))

/-- Print `ability` node. -/
def printAbility : PrintProc := fun _ _ n =>
  some (Doc.text n.text)

/-- Print `tuple_type` node. -/
def printTupleType : PrintProc := fun print _ n =>
  some (Doc.group
    (Doc.concat [
      Doc.text "(",
      Doc.indent Doc.softline,
      Doc.indent (joinDoc (Doc.concat [Doc.text ",", Doc.line]) (printedChildren print n)),
      Doc.ifBreak (Doc.text ",") (Doc.text ""),
      Doc.softline,
      Doc.text ")"])
    false)

/-- Print `bind_unpack` node. -/
def printBindUnpack : PrintProc := fun print _ n =>
  some (Doc.concat (printedChildren print n))

/-- Print `bind_fields` node: delegates to its single significant child. -/
def printBindFields : PrintProc := fun print _ n =>
  match n.nonFormattingWithCtx.head? with
  | none => none
  | some p => some (print p.1 p.2)

/-- Print `bind_field` node: `'..'` when `child(0)?.type == '..'`;
otherwise the significant children joined by `": "`, each prefixed with
`"mut "` when its previous sibling is the `mut` keyword. -/
def printBindField : PrintProc := fun print _ n =>
  if (n.child 0).elim false (fun c => c.type == "..") then
    some (Doc.text "..")
  else
    some (joinDoc (Doc.text ": ")
      (n.nonFormattingWithCtx.map (fun p =>
        if p.1.prevTypeIs "mut" then Doc.concat [Doc.text "mut ", print p.1 p.2]
        else print p.1 p.2)))

/-- Print `bind_list` node. -/
def printBindList : PrintProc := fun print _ n =>
  if n.nonFormattingChildren.length == 1 then
    some (joinDoc (Doc.text " ") (printedChildren print n))
  else
    some (Doc.group (listHelper print n "(" ")" false 0) false)

/-- Print `bind_named_fields` node. -/
def printBindNamedFields : PrintProc := fun print _ n =>
  some (Doc.concat [Doc.text " ",
    Doc.group (listHelper print n "\x7b" "\x7d" true 0) (shouldBreakFirstChild n)])

/-- Print `bind_positional_fields` node. -/
def printBindPositionalFields : PrintProc := fun print _ n =>
  some (Doc.group (listHelper print n "(" ")" false 0) (shouldBreakFirstChild n))

/-- Print `bind_var` node: prefix `"mut "` when the previous sibling is the
`mut` keyword, then the first formatting-significant child. -/
def printBindVar : PrintProc := fun print ctx n =>
  let isMut := ctx.prevTypeIs "mut"
  match n.nonFormattingWithCtx.head? with
  | none => none
  | some p =>
    some (Doc.concat [if isMut then Doc.concat [Doc.text "mut "] else Doc.text "",
      print p.1 p.2])

/-- Print `alias` node. -/
def printAlias : PrintProc := fun print _ n =>
  match n.nonFormattingWithCtx.head? with
  | none => none
  | some p => some (Doc.concat [Doc.text "as ", print p.1 p.2])

/-- Print `block_identifier` node. -/
def printBlockIdentifier : PrintProc := fun print _ n =>
  match n.nonFormattingWithCtx.head? with
  | none => none
  | some p => some (print p.1 p.2)

/-- Print `label` node: appends a literal colon when the next sibling is a
colon token. -/
def printLabel : PrintProc := fun _ ctx n =>
  if ctx.nextTypeIs ":" then some (Doc.concat [Doc.text n.text, Doc.text ":"])
  else some (Doc.text n.text)

/-- Print `unary_op` node. -/
def printUnaryOperator : PrintProc := fun _ _ n =>
  some (Doc.text n.text)

/-- Print `field_initialize_list` node. -/
def printFieldInitializeList : PrintProc := fun print _ n =>
  some (Doc.concat [Doc.text " ",
    Doc.group (listHelper print n "\x7b" "\x7d" true 0) (shouldBreakFirstChild n)])

/-- Print `exp_field` node: one significant child is printed directly
(shorthand form); otherwise the first two children joined by `": "` in a
group.  With zero significant children the TypeScript code returns an
`undefined` array element as a document, an invalid value; that failure is
modelled as `none`. -/
def printExpressionField : PrintProc := fun print _ n =>
  match printedChildren print n with
  | [] => none
  | [d] => some d
  | d0 :: d1 :: _ => some (Doc.group (Doc.concat [d0, Doc.text ": ", d1]) false)

/-- Print `lambda_bindings` node. -/
def printLambdaBindings : PrintProc := fun print _ n =>
  some (Doc.group (listHelper print n "|" "|" false 0) false)

/-- Print `function_type` node: no significant children prints `"||"`, a
single child prints directly, otherwise the children joined by
`" -> "`. -/
def printFunctionType : PrintProc := fun print _ n =>
  match printedChildren print n with
  | [] => some (Doc.text "||")
  | [d] => some d
  | ds => some (joinDoc (Doc.text " -> ") ds)

/-- Print `function_type_parameters` node. -/
def printFunctionTypeParameters : PrintProc := fun print _ n =>
  some (Doc.group (listHelper print n "|" "|" false 0) false)

mutual

/-- Flat layout of a document: the text the renderer produces when every
group is laid out flat (`line` becomes a space, `softline` nothing, and an
`ifBreak` contributes its flat component).  Used to state the
trailing-comma-only-when-broken behaviour. -/
def flatRender : Doc → String
  | .text s => s
  | .concat ds => flatRenderList ds
  | .group d _ => flatRender d
  | .indent d => flatRender d
  | .line => " "
  | .softline => ""
  | .hardline => "\n"
  | .ifBreak _ whenFlat => flatRender whenFlat

/-- Flat layout of a document list, concatenated. -/
def flatRenderList : List Doc → String
  | [] => ""
  | d :: ds => flatRender d ++ flatRenderList ds

end

/-- The string values of the `Common` enum, in declaration order. -/
def Common.values : List String :=
  ["primitive_type", "variable_identifier", "module_access", "identifier",
   "ref_type", "function_type", "function_type_parameters", "binary_operator",
   "field_identifier", "block_identifier", "ability", "tuple_type",
   "annotation", "annotation_item", "annotation_list", "annotation_expr",
   "bind_unpack", "bind_fields", "bind_field", "bind_list",
   "bind_named_fields", "bind_positional_fields", "bind_var",
   "lambda_bindings", "label", "alias", "unary_op", "field_initialize_list",
   "exp_field"]

/-- The registry lookup: the default-exported dispatch of `Common.ts`,
switching on `path.node.type` and returning the print procedure, or `none`
for a kind this core does not own. -/
def commonDispatch (t : String) : Option PrintProc :=
  match t with
  | "primitive_type" => some printPrimitiveType
  | "variable_identifier" => some printVariableIdentifier
  | "module_access" => some printModuleAccess
  | "identifier" => some printIdentifier
  | "ref_type" => some printRefType
  | "function_type" => some printFunctionType
  | "function_type_parameters" => some printFunctionTypeParameters
  | "binary_operator" => some printBinaryOperator
  | "field_identifier" => some printFieldIdentifier
  | "ability" => some printAbility
  | "tuple_type" => some printTupleType
  | "annotation" => some printAnnotation
  | "annotation_item" => some printAnnotationItem
  | "annotation_list" => some printAnnotationList
  | "annotation_expr" => some printAnnotationExpression
  | "bind_unpack" => some printBindUnpack
  | "bind_fields" => some printBindFields
  | "bind_field" => some printBindField
  | "bind_list" => some printBindList
  | "bind_named_fields" => some printBindNamedFields
  | "bind_positional_fields" => some printBindPositionalFields
  | "bind_var" => some printBindVar
  | "label" => some printLabel
  | "alias" => some printAlias
  | "block_identifier" => some printBlockIdentifier
  | "unary_op" => some printUnaryOperator
  | "field_initialize_list" => some printFieldInitializeList
  | "exp_field" => some printExpressionField
  | "lambda_bindings" => some printLambdaBindings
  | _ => none

/- Concrete nodes and a simple recursive-print callback used by the witness
theorems below. -/

/-- A recursive-print callback that prints every node as its raw text. -/
def wPrint : RecPrint := fun _ n => Doc.text n.text

/-- An empty sibling context. -/
def wCtx : Ctx := ⟨none, none⟩

/- Bridge lemmas between the context-paired and the plain
formatting-significant children views. -/

/-- Dropping the contexts from `childCtxs` recovers the child list. -/
theorem childCtxs_map_snd (cs : List Node) (prev : Option Node) :
    (childCtxs cs prev).map Prod.snd = cs := by
  induction cs generalizing prev with
  | nil => rfl
  | cons c rest ih => simp [childCtxs, ih]

/-- Filtering pairs by a predicate on the second component commutes with
projecting the second component. -/
theorem map_snd_filter_snd (P : Node → Bool) (l : List (Ctx × Node)) :
    (l.filter (fun p => P p.2)).map Prod.snd = (l.map Prod.snd).filter P := by
  induction l with
  | nil => rfl
  | cons a l ih =>
    by_cases h : P a.2 = true <;> simp [List.filter, h, ih]

/-- The context-paired formatting-significant children project to the plain
formatting-significant children. -/
theorem Node.map_snd_nonFormattingWithCtx (n : Node) :
    n.nonFormattingWithCtx.map Prod.snd = n.nonFormattingChildren := by
  unfold Node.nonFormattingWithCtx Node.nonFormattingChildren Node.childrenWithCtx
  rw [map_snd_filter_snd, childCtxs_map_snd]

/- Claim theorems. -/

/-- C1: a `function_type` node with zero formatting-significant children
prints as the literal `"||"`; with exactly one it prints that child's
document unchanged; with exactly two it prints the two children's documents
joined by `" -> "`. -/
theorem printFunctionType_cases (print : RecPrint) (ctx : Ctx) (n : Node) :
    (n.nonFormattingChildren = [] →
      printFunctionType print ctx n = some (Doc.text "||")) ∧
    (∀ x c, n.nonFormattingWithCtx = [(x, c)] →
      printFunctionType print ctx n = some (print x c)) ∧
    (∀ x₁ c₁ x₂ c₂, n.nonFormattingWithCtx = [(x₁, c₁), (x₂, c₂)] →
      printFunctionType print ctx n =
        some (joinDoc (Doc.text " -> ") [print x₁ c₁, print x₂ c₂])) := by
  refine ⟨?_, ?_, ?_⟩
  · intro h
    have hw : n.nonFormattingWithCtx = [] := by
      have hm := Node.map_snd_nonFormattingWithCtx n
      rw [h] at hm
      exact List.map_eq_nil_iff.mp hm
    simp [printFunctionType, printedChildren, hw]
  · intro x c h
    simp [printFunctionType, printedChildren, h]
  · intro x₁ c₁ x₂ c₂ h
    simp [printFunctionType, printedChildren, h]

/-- An empty function type node: no children at all. -/
def ftEmpty : Node := Node.mk "function_type" "||" true 0 0 []

/-- Witness for C1 at the empty function type: it prints as `"||"`. -/
theorem printFunctionType_cases_witness :
    printFunctionType wPrint wCtx ftEmpty = some (Doc.text "||") :=
  (printFunctionType_cases wPrint wCtx ftEmpty).1 rfl

/-- C2: a `tuple_type` node prints as a non-forced group (shouldBreak
false) of an opening parenthesis, an indented softline, the indented
comma-plus-line join of the formatting-significant children's documents, an
IfBreak trailing comma, a softline and a closing parenthesis; moreover in
flat layout the document renders with no trailing comma: exactly the open
delimiter, the flat join, and the close delimiter. -/
theorem printTupleType_structure (print : RecPrint) (ctx : Ctx) (n : Node) :
    printTupleType print ctx n =
      some (Doc.group
        (Doc.concat [
          Doc.text "(",
          Doc.indent Doc.softline,
          Doc.indent (joinDoc (Doc.concat [Doc.text ",", Doc.line])
            (printedChildren print n)),
          Doc.ifBreak (Doc.text ",") (Doc.text ""),
          Doc.softline,
          Doc.text ")"])
        false) ∧
    (∀ d, printTupleType print ctx n = some d →
      flatRender d =
        "(" ++ flatRender (joinDoc (Doc.concat [Doc.text ",", Doc.line])
          (printedChildren print n)) ++ ")") := by
  refine ⟨rfl, ?_⟩
  intro d hd
  have hd2 : d =
      Doc.group
        (Doc.concat [
          Doc.text "(",
          Doc.indent Doc.softline,
          Doc.indent (joinDoc (Doc.concat [Doc.text ",", Doc.line])
            (printedChildren print n)),
          Doc.ifBreak (Doc.text ",") (Doc.text ""),
          Doc.softline,
          Doc.text ")"])
        false := (Option.some.inj hd).symm
  subst hd2
  simp [flatRender, flatRenderList, String.append_assoc]

/-- A two-element tuple type node `(u8, bool)`. -/
def ttU8 : Node := Node.mk "primitive_type" "u8" true 0 0 []

/-- Second element of the witness tuple type. -/
def ttBool : Node := Node.mk "primitive_type" "bool" true 0 0 []

/-- The witness tuple type node. -/
def ttNode : Node := Node.mk "tuple_type" "(u8, bool)" true 0 0 [ttU8, ttBool]

/-- Witness for C2: the flat layout of the printed two-element tuple type
is exactly `(u8, bool)` with no trailing comma. -/
theorem printTupleType_structure_witness :
    ∃ d, printTupleType wPrint wCtx ttNode = some d ∧
      flatRender d = "(u8, bool)" := by
  refine ⟨_, rfl, ?_⟩
  have h := (printTupleType_structure wPrint wCtx ttNode).2 _ rfl
  rw [h]
  rfl

/-- C3: a `ref_type` node whose first raw child has literal text `"&"`
prints as a group of `"&"` followed by the first formatting-significant
child's document; when the first child is the mutable-reference marker
(literal text `"&mut"`), it prints as a group of `"&mut "` followed by that
document. -/
theorem printRefType_marker (print : RecPrint) (ctx : Ctx) (n : Node)
    (c0 : Node) (h0 : n.child 0 = some c0)
    (p : Ctx × Node) (hp : n.nonFormattingWithCtx.head? = some p) :
    (c0.text = "&" →
      printRefType print ctx n =
        some (Doc.group (Doc.concat [Doc.text "&", print p.1 p.2]) false)) ∧
    (c0.text = "&mut" →
      printRefType print ctx n =
        some (Doc.group (Doc.concat [Doc.text "&mut ", print p.1 p.2]) false)) := by
  constructor
  · intro h
    simp [printRefType, h0, hp, h]
  · intro h
    simp [printRefType, h0, hp, h]

/-- The mutable-reference marker token of the C3 witness node. -/
def refMutMarker : Node := Node.mk "&mut" "&mut" false 0 0 []

/-- The referenced type of the C3 witness node. -/
def refTypeT : Node := Node.mk "type_identifier" "T" true 0 0 []

/-- A `ref_type` node wrapping a mutable marker and type `T`. -/
def refMutNode : Node := Node.mk "ref_type" "&mut T" true 0 0 [refMutMarker, refTypeT]

/-- Witness for C3: the mutable reference to `T` prints as `&mut T`. -/
theorem printRefType_marker_witness :
    printRefType wPrint wCtx refMutNode =
      some (Doc.group (Doc.concat [Doc.text "&mut ", Doc.text "T"]) false) :=
  (printRefType_marker wPrint wCtx refMutNode refMutMarker rfl
    (⟨some refMutMarker, none⟩, refTypeT) rfl).2 rfl

/-- C4: a `bind_var` node whose previous sibling is the `mut` keyword
prints with the literal `"mut "` prefixed to the first
formatting-significant child's document, and with no prefix otherwise;
likewise in `bind_field` the contribution of a significant child whose
previous sibling is the `mut` keyword is that child's document prefixed by
`"mut "`. -/
theorem mut_sibling_prefixing (print : RecPrint) (ctx : Ctx) (n : Node)
    (p : Ctx × Node) :
    (n.nonFormattingWithCtx.head? = some p →
      (ctx.prevTypeIs "mut" = true →
        printBindVar print ctx n =
          some (Doc.concat [Doc.concat [Doc.text "mut "], print p.1 p.2])) ∧
      (ctx.prevTypeIs "mut" = false →
        printBindVar print ctx n =
          some (Doc.concat [Doc.text "", print p.1 p.2]))) ∧
    ((n.child 0).elim false (fun c => c.type == "..") = false →
      p ∈ n.nonFormattingWithCtx → p.1.prevTypeIs "mut" = true →
      ∃ ds : List Doc,
        printBindField print ctx n = some (joinDoc (Doc.text ": ") ds) ∧
        Doc.concat [Doc.text "mut ", print p.1 p.2] ∈ ds) := by
  constructor
  · intro hp
    constructor <;> intro hm <;> simp [printBindVar, hp, hm]
  · intro hrest hmem hmut
    refine ⟨n.nonFormattingWithCtx.map (fun q =>
      if q.1.prevTypeIs "mut" then Doc.concat [Doc.text "mut ", print q.1 q.2]
      else print q.1 q.2), ?_, ?_⟩
    · simp [printBindField, hrest]
    · exact List.mem_map.mpr ⟨p, hmem, by simp [hmut]⟩

/-- The variable inside the C4 witness `bind_var`. -/
def bvChild : Node := Node.mk "variable_identifier" "x" true 0 0 []

/-- The C4 witness `bind_var` node. -/
def bvNode : Node := Node.mk "bind_var" "x" true 0 0 [bvChild]

/-- A `mut` keyword token. -/
def mutTok : Node := Node.mk "mut" "mut" false 0 0 []

/-- Witness for C4: `mut x` as a bind_var prints as `mut ` before `x`. -/
theorem mut_sibling_prefixing_witness :
    printBindVar wPrint ⟨some mutTok, none⟩ bvNode =
      some (Doc.concat [Doc.concat [Doc.text "mut "], Doc.text "x"]) :=
  ((mut_sibling_prefixing wPrint ⟨some mutTok, none⟩ bvNode
    (⟨none, none⟩, bvChild)).1 rfl).1 rfl

/-- The rest-pattern token used by the C5 counterexample. -/
def restTok : Node := Node.mk ".." ".." false 0 0 []

/-- An extra child after the rest token, for the C5 counterexample. -/
def bfExtraChild : Node := Node.mk "variable_identifier" "x" true 0 0 []

/-- A `bind_field` node whose FIRST child is the rest token but which has a
second child, so the rest token is not its sole child. -/
def bfRestExtra : Node := Node.mk "bind_field" ".. x" true 0 0 [restTok, bfExtraChild]

/-- C5 counterexample: `printBindField` returns the literal `".."` for a
node with two children whose first child is the rest token — the claim's
condition "the node's sole child is the rest-pattern token" is false here
(the node has two children), yet the literal is still produced, so "exactly
when the sole child is the rest token" fails; the code tests only the first
child. -/
theorem printBindField_sole_child_counterexample :
    printBindField wPrint wCtx bfRestExtra = some (Doc.text "..") ∧
    bfRestExtra.children.length = 2 := ⟨rfl, rfl⟩

/-- C5 (amended): `printBindField` returns the literal `".."` exactly when
the node's FIRST child is the rest-pattern token; otherwise it returns the
significant children's documents (with the C4 `"mut "` prefix applied per
child) joined by `": "` — one child is printed without any separator, two
are joined. -/
theorem printBindField_rest_iff (print : RecPrint) (ctx : Ctx) (n : Node) :
    (printBindField print ctx n = some (Doc.text "..") ↔
      (n.child 0).elim false (fun c => c.type == "..") = true) ∧
    ((n.child 0).elim false (fun c => c.type == "..") = false →
      printBindField print ctx n =
        some (joinDoc (Doc.text ": ")
          (n.nonFormattingWithCtx.map (fun p =>
            if p.1.prevTypeIs "mut" then Doc.concat [Doc.text "mut ", print p.1 p.2]
            else print p.1 p.2)))) := by
  constructor
  · constructor
    · intro h
      simp only [printBindField] at h
      split at h
      · assumption
      · exfalso
        simp [joinDoc] at h
    · intro hc
      simp [printBindField, hc]
  · intro hc
    simp [printBindField, hc]

/-- Field identifier of the C5 witness node. -/
def bfName : Node := Node.mk "field_identifier" "f" true 0 0 []

/-- Colon token of the C5 witness node. -/
def bfColon : Node := Node.mk ":" ":" false 0 0 []

/-- Bound value of the C5 witness node. -/
def bfVal : Node := Node.mk "bind_var" "y" true 0 0 []

/-- A plain two-child `bind_field` node `f: y`. -/
def bfPlain : Node := Node.mk "bind_field" "f: y" true 0 0 [bfName, bfColon, bfVal]

/-- Witness for the amended C5: `f: y` prints as the two children's
documents joined by `": "`. -/
theorem printBindField_rest_iff_witness :
    printBindField wPrint wCtx bfPlain =
      some (Doc.concat [Doc.text "f", Doc.text ": ", Doc.text "y"]) :=
  (printBindField_rest_iff wPrint wCtx bfPlain).2 rfl

/-- C6: the leaf/text-passthrough printers (`primitive_type`,
`variable_identifier`, `identifier`, `binary_operator`, `field_identifier`,
`ability`, `unary_op`) return exactly `Text(node.text)` and are total: they
succeed on any node with no error condition. -/
theorem leaf_passthrough_total (print : RecPrint) (ctx : Ctx) (n : Node) :
    printPrimitiveType print ctx n = some (Doc.text n.text) ∧
    printVariableIdentifier print ctx n = some (Doc.text n.text) ∧
    printIdentifier print ctx n = some (Doc.text n.text) ∧
    printBinaryOperator print ctx n = some (Doc.text n.text) ∧
    printFieldIdentifier print ctx n = some (Doc.text n.text) ∧
    printAbility print ctx n = some (Doc.text n.text) ∧
    printUnaryOperator print ctx n = some (Doc.text n.text) :=
  ⟨rfl, rfl, rfl, rfl, rfl, rfl, rfl⟩

/-- C7: for `bind_named_fields`, `bind_positional_fields` and
`field_initialize_list` the returned group's shouldBreak flag is the
spec-modelled `shouldBreakFirstChild` predicate, which holds exactly when
the node's first child spans multiple source lines in the original. -/
theorem forced_break_first_child (print : RecPrint) (ctx : Ctx) (n : Node) :
    printBindNamedFields print ctx n =
      some (Doc.concat [Doc.text " ",
        Doc.group (listHelper print n "\x7b" "\x7d" true 0)
          (shouldBreakFirstChild n)]) ∧
    printBindPositionalFields print ctx n =
      some (Doc.group (listHelper print n "(" ")" false 0)
        (shouldBreakFirstChild n)) ∧
    printFieldInitializeList print ctx n =
      some (Doc.concat [Doc.text " ",
        Doc.group (listHelper print n "\x7b" "\x7d" true 0)
          (shouldBreakFirstChild n)]) ∧
    (shouldBreakFirstChild n = true ↔
      ∃ c, n.children.head? = some c ∧ c.startRow ≠ c.endRow) := by
  refine ⟨rfl, rfl, rfl, ?_⟩
  unfold shouldBreakFirstChild
  cases h : n.children.head? with
  | none => simp
  | some c => simp [bne_iff_ne]

/-- C8: the registry lookup returns a procedure exactly for the node kinds
of the `Common` enum, and `none` for every other kind discriminant. -/
theorem commonDispatch_isSome_iff (t : String) :
    (commonDispatch t).isSome = true ↔ t ∈ Common.values := by
  unfold commonDispatch
  split <;> simp_all [Common.values]

/-- C9: every registered print procedure is a pure projection — it cannot
mutate the node tree (the embedding passes nodes by value), and two
invocations through the registry on the same node in the same sibling
context, with the same recursive-print callback, return structurally equal
documents. -/
theorem print_procedures_two_run (t : String) (print : RecPrint)
    (ctx₁ ctx₂ : Ctx) (n₁ n₂ : Node) (hn : n₁ = n₂) (hc : ctx₁ = ctx₂) :
    (commonDispatch t).map (fun proc => proc print ctx₁ n₁) =
      (commonDispatch t).map (fun proc => proc print ctx₂ n₂) := by
  subst hn; subst hc; rfl

/-- A plain identifier node for the C9 witness. -/
def idNode : Node := Node.mk "identifier" "foo" true 0 0 []

/-- Witness for C9: two runs of the dispatched identifier printer on the
same node and context agree. -/
theorem print_procedures_two_run_witness :
    (commonDispatch "identifier").map (fun proc => proc wPrint wCtx idNode) =
      (commonDispatch "identifier").map (fun proc => proc wPrint wCtx idNode) :=
  print_procedures_two_run "identifier" wPrint wCtx wCtx idNode idNode rfl rfl

/-- C10: an `exp_field` node with three or more formatting-significant
children prints as a group of the first child's document, `": "` and the
second child's document — every child after the second is silently
discarded rather than printed or raising an error. -/
theorem printExpressionField_discards (print : RecPrint) (ctx : Ctx)
    (n : Node) (p₀ p₁ p₂ : Ctx × Node) (rest : List (Ctx × Node))
    (h : n.nonFormattingWithCtx = p₀ :: p₁ :: p₂ :: rest) :
    printExpressionField print ctx n =
      some (Doc.group
        (Doc.concat [print p₀.1 p₀.2, Doc.text ": ", print p₁.1 p₁.2])
        false) := by
  simp [printExpressionField, printedChildren, h]

/-- First significant child of the C10 witness node. -/
def efA : Node := Node.mk "field_identifier" "a" true 0 0 []

/-- Second significant child of the C10 witness node. -/
def efB : Node := Node.mk "identifier" "b" true 0 0 []

/-- Third significant child of the C10 witness node, which is discarded. -/
def efC : Node := Node.mk "identifier" "c" true 0 0 []

/-- An `exp_field` node with three formatting-significant children. -/
def efNode : Node := Node.mk "exp_field" "a: b c" true 0 0 [efA, efB, efC]

/-- Witness for C10: the three-child expression field prints only the
first two children. -/
theorem printExpressionField_discards_witness :
    printExpressionField wPrint wCtx efNode =
      some (Doc.group
        (Doc.concat [Doc.text "a", Doc.text ": ", Doc.text "b"]) false) :=
  printExpressionField_discards wPrint wCtx efNode
    (⟨none, some efB⟩, efA) (⟨some efA, some efC⟩, efB) (⟨some efB, none⟩, efC)
    [] rfl
